import Mathlib

/-!
Shallow embedding of `tools/image_generation/create_nebula.py`
(`NebulaGenerator` and the `main` command-line front end).

Modelling conventions:
* Python floats are modelled by exact rationals `ℚ`; decimal float
  literals of the source become the corresponding exact rationals.
* Irrational library constants and transcendental library functions
  (`math.pi`, `math.cos`, `math.sin`, `math.sqrt`, `x ** 0.5`) are
  abstract parameters of the model (`piQ`, `pyCos`, `pySin`, `pySqrt`).
* The process-global state of the Python `random` module is passed
  explicitly: every consumer takes the current state and returns the
  advanced one.  The Mersenne-Twister internals are abstracted into a
  state type `σ` together with the draw functions the source calls
  (`seedF`, `randintF`, `uniformF`, `randF`, `choiceF`).
* `hash` on an integer pair is an abstract parameter `pyHash`.
* PIL library routines that are not part of this repository
  (`ImageDraw` star rendering, `GaussianBlur`, `alpha_composite`) are
  abstract parameters acting on pixel functions; they preserve image
  dimensions exactly as PIL does.
-/

namespace Nebula

/-- Python `int()` applied to a float: truncation toward zero. -/
def pyInt (q : ℚ) : ℤ := if 0 ≤ q then ⌊q⌋ else ⌈q⌉

/-- Storing an integer into a `numpy` `uint8` cell keeps its value mod 256. -/
def u8 (v : ℤ) : ℤ := v % 256

/-- The per-step intensity decay of the particle advection loop:
`current_intensity *= 0.95`. -/
def decayStep (i : ℚ) : ℚ := i * 0.95

/-- An RGBA pixel (channel values as stored in the `uint8` image array). -/
abbrev RGBA := ℤ × ℤ × ℤ × ℤ

/-- An RGB pixel. -/
abbrev RGB := ℤ × ℤ × ℤ

/-- A raster image: fixed dimensions plus a pixel function `px x y`
(`x` is the column, `y` the row). -/
structure Img (α : Type) where
  width : ℕ
  height : ℕ
  px : ℕ → ℕ → α

/-- One star drawn by `_create_star_field`: position, brightness and size
(size 1 is a single point, size 2 a small filled ellipse). -/
structure Star where
  x : ℤ
  y : ℤ
  brightness : ℤ
  size : ℕ

/-- The ambient Python environment: the `random` module (its process-global
Mersenne-Twister state has type `σ` and is passed explicitly), integer-pair
`hash`, float math functions, and the PIL routines external to this
repository. -/
structure PyEnv (σ : Type) where
  /-- Model of `random.seed(S)`: the global state after seeding with `S`. -/
  seedF : ℤ → σ
  /-- Model of `random.randint(a, b)`: a draw plus the advanced state. -/
  randintF : ℤ → ℤ → σ → ℤ × σ
  /-- Model of `random.uniform(a, b)`. -/
  uniformF : ℚ → ℚ → σ → ℚ × σ
  /-- Model of `random.random()`. -/
  randF : σ → ℚ × σ
  /-- Model of `random.choice(seq)` on a sequence of the given length, as the
  chosen index plus the advanced state. -/
  choiceF : ℕ → σ → ℕ × σ
  /-- Model of `hash((a, b))` on a pair of ints. -/
  pyHash : ℤ × ℤ → ℤ
  /-- The float value of `math.pi`. -/
  piQ : ℚ
  /-- Model of `math.cos`. -/
  pyCos : ℚ → ℚ
  /-- Model of `math.sin`. -/
  pySin : ℚ → ℚ
  /-- Model of `x ** 0.5` on a nonnegative float. -/
  pySqrt : ℚ → ℚ
  /-- PIL rendering of the drawn star list onto a transparent canvas. -/
  drawStarsF : List Star → ℕ → ℕ → RGBA
  /-- Model of `ImageFilter.GaussianBlur(radius)` applied to a pixel function;
  PIL preserves the image dimensions. -/
  blurF : ℕ → (ℕ → ℕ → RGBA) → ℕ → ℕ → RGBA
  /-- Per-pixel `Image.alpha_composite` blending (bottom, top). -/
  overF : RGBA → RGBA → RGBA

section Model

variable {σ : Type}
variable (pyHash : ℤ × ℤ → ℤ)

/-- Model of `NebulaGenerator._noise_2d` with its default `scale = 1.0`:
`hash((int(x * 12.9898), int(y * 78.233))) % 2**32` rescaled to `[-1, 1)`. -/
def noise2d (x y : ℚ) : ℚ :=
  let hashVal : ℤ := pyHash (pyInt (x * 12.9898), pyInt (y * 78.233)) % 2 ^ 32
  ((hashVal : ℚ) / 2 ^ 32) * 2 - 1

/-- Each pass of the `while size >= 1` loop halves `size`; the ceiling of
`2 * size` is a decreasing natural measure for it. -/
theorem halvingMeasureLt {s : ℚ} (h : ¬s < 1) :
    (⌈2 * (s / 2)⌉).toNat < (⌈2 * s⌉).toNat := by
  have h1 : (1 : ℚ) ≤ s := not_lt.mp h
  have h3 : (⌈s⌉ : ℤ) < ⌈2 * s⌉ := by
    calc (⌈s⌉ : ℤ) < ⌈s⌉ + 1 := lt_add_one _
      _ = ⌈s + (1 : ℤ)⌉ := (Int.ceil_add_int s 1).symm
      _ ≤ ⌈2 * s⌉ := by
          apply Int.ceil_le_ceil
          push_cast
          linarith
  have h4 : (0 : ℤ) < ⌈s⌉ := by
    have : (0 : ℚ) < s := by linarith
    exact Int.ceil_pos.mpr this
  have h5 : (2 : ℚ) * (s / 2) = s := by ring
  rw [h5]
  omega

/-- The `while size >= 1` accumulation loop of `NebulaGenerator._turbulence`:
`value += abs(noise(x/size, y/size)) * size; size /= 2`. -/
def turbLoop (x y : ℚ) (size : ℚ) : ℚ :=
  if h : size < 1 then 0
  else |noise2d pyHash (x / size) (y / size)| * size + turbLoop x y (size / 2)
  termination_by (⌈2 * size⌉).toNat
  decreasing_by exact halvingMeasureLt h

/-- Model of `NebulaGenerator._turbulence`: the loop value divided by the initial size. -/
def turbulence (x y size : ℚ) : ℚ :=
  turbLoop pyHash x y size / size

/-- The octave sizes the turbulence loop visits:
`size, size/2, size/4, ...` while the value is `≥ 1`.
(Stated from the spec text for the accumulation, for comparison
with the loop implementation.) -/
def octaves (size : ℚ) : List ℚ :=
  if h : size < 1 then []
  else size :: octaves (size / 2)
  termination_by (⌈2 * size⌉).toNat
  decreasing_by exact halvingMeasureLt h

/-- Spec-side sum `Σ |noise(x/s, y/s)| * s` over the octave sizes, divided by
the initial size (the natural-language description of `_turbulence`). -/
def specTurbulence (x y size : ℚ) : ℚ :=
  (((octaves size).map (fun s => |noise2d pyHash (x / s) (y / s)| * s)).sum) / size

variable (E : PyEnv σ)

/-- The theme palettes chosen by `generate_nebula` when `colors is None`;
an unrecognized name falls into the `else` branch (default palette). -/
def paletteFor (theme : String) : List RGB :=
  if theme = "fire" then
    [(255, 120, 20), (255, 180, 40), (255, 60, 10), (255, 220, 80)]
  else if theme = "ice" then
    [(80, 180, 255), (120, 220, 255), (40, 140, 255), (180, 240, 255)]
  else if theme = "alien" then
    [(40, 255, 80), (120, 255, 40), (80, 255, 180), (20, 200, 60)]
  else if theme = "sunset" then
    [(255, 80, 120), (255, 140, 60), (180, 40, 180), (255, 180, 80)]
  else
    [(255, 120, 40), (160, 40, 255), (40, 255, 140), (255, 200, 40)]

/-- Model of `NebulaGenerator._create_gradient_base`.  The division
`distance / max_distance` raises `ZeroDivisionError` exactly when
`max_distance = sqrt(center_x**2 + center_y**2)` is `0`, i.e. when the
radicand is `0` (float `sqrt` vanishes only at `0`); that case is `none`. -/
def gradientBase (w h : ℕ) : Option (Img RGB) :=
  let cx := w / 2
  let cy := h / 2
  if cx ^ 2 + cy ^ 2 = 0 then none
  else some ⟨w, h, fun x y =>
    let distance := E.pySqrt (((x : ℚ) - cx) ^ 2 + ((y : ℚ) - cy) ^ 2)
    let maxDistance := E.pySqrt ((cx : ℚ) ^ 2 + (cy : ℚ) ^ 2)
    let gf := 1 - distance / maxDistance
    (u8 (pyInt (gf * 8 + 2)), u8 (pyInt (gf * 5 + 1)), u8 (pyInt (gf * 12 + 4)))⟩

/-- The star draws of `_create_star_field`, in draw order: per star the
source draws `randint(0, w-1)`, `randint(0, h-1)`, `randint(100, 255)` and
`random.choice([1, 1, 1, 2])`. -/
def starList (w h : ℕ) : ℕ → σ → List Star × σ
  | 0, g => ([], g)
  | n + 1, g =>
      let p1 := E.randintF 0 ((w : ℤ) - 1) g
      let p2 := E.randintF 0 ((h : ℤ) - 1) p1.2
      let p3 := E.randintF 100 255 p2.2
      let p4 := E.choiceF 4 p3.2
      let size := [1, 1, 1, 2].getD p4.1 1
      let rest := starList w h n p4.2
      (⟨p1.1, p2.1, p3.1, size⟩ :: rest.1, rest.2)

/-- Model of `NebulaGenerator._create_star_field`: the stars rendered onto a
transparent canvas of the generator dimensions. -/
def starField (w h numStars : ℕ) (g : σ) : Img RGBA × σ :=
  let r := starList E w h numStars g
  (⟨w, h, E.drawStarsF r.1⟩, r.2)

/-- The flow-field scale of `_create_density_field`:
`max(32.0, min(width, height) / 20)`. -/
def flowScale (w h : ℕ) : ℚ :=
  max 32 ((min w h : ℚ) / 20)

/-- One pixel of `_create_flow_field`:
`angle = turbulence(x, y, scale) * 2 * pi`, vector `(cos angle, sin angle)`. -/
def flowAt (scale : ℚ) (x y : ℕ) : ℚ × ℚ :=
  let angle := turbulence E.pyHash (x : ℚ) (y : ℚ) scale * 2 * E.piQ
  (E.pyCos angle, E.pySin angle)

/-- Deposit step `density[iy, ix] += v` on a density pixel function. -/
def deposit (d : ℕ → ℕ → ℚ) (ix iy : ℕ) (v : ℚ) : ℕ → ℕ → ℚ :=
  fun x y => if x = ix ∧ y = iy then d x y + v else d x y

/-- The count `particles_per_seed = max(200, 1000 - (width*height // 1000))`
(truncated `ℕ` subtraction agrees with Python here: a negative Python
value is dominated by the `max` with `200`). -/
def particlesPerSeed (w h : ℕ) : ℕ := max 200 (1000 - w * h / 1000)

/-- The bound `max_steps = max(50, 150 - (width*height // 5000))`. -/
def maxStepsFor (w h : ℕ) : ℕ := max 50 (150 - w * h / 5000)

/-- The inner advection loop of `_create_density_field` for one particle:
while in bounds, deposit `intensity * 0.05`, move along the flow by `3.0`,
jitter each axis by `(random() - 0.5) * 1.0`, decay intensity by `0.95`,
and stop below `0.02`. -/
def advect (w h : ℕ) (flow : ℕ → ℕ → ℚ × ℚ) :
    ℕ → ℚ → ℚ → ℚ → (ℕ → ℕ → ℚ) → σ → (ℕ → ℕ → ℚ) × σ
  | 0, _, _, _, d, g => (d, g)
  | steps + 1, x, y, inten, d, g =>
      if 0 ≤ pyInt x ∧ pyInt x < (w : ℤ) ∧ 0 ≤ pyInt y ∧ pyInt y < (h : ℤ) then
        let ix := (pyInt x).toNat
        let iy := (pyInt y).toNat
        let d1 := deposit d ix iy (inten * 0.05)
        let fv := flow ix iy
        let x1 := x + fv.1 * 3.0
        let y1 := y + fv.2 * 3.0
        let j1 := E.randF g
        let x2 := x1 + (j1.1 - 0.5) * 1.0
        let j2 := E.randF j1.2
        let y2 := y1 + (j2.1 - 0.5) * 1.0
        let inten1 := decayStep inten
        if inten1 < 0.02 then (d1, j2.2)
        else advect w h flow steps x2 y2 inten1 d1 j2.2
      else (d, g)

/-- All particles spawned from one seed (each starts at the seed position
with the seed intensity). -/
def particleRuns (w h : ℕ) (flow : ℕ → ℕ → ℚ × ℚ) (maxSteps : ℕ)
    (sx sy : ℤ) (inten : ℚ) :
    ℕ → (ℕ → ℕ → ℚ) → σ → (ℕ → ℕ → ℚ) × σ
  | 0, d, g => (d, g)
  | n + 1, d, g =>
      let r := advect E w h flow maxSteps (sx : ℚ) (sy : ℚ) inten d g
      particleRuns w h flow maxSteps sx sy inten n r.1 r.2

/-- Seed placement of `_create_density_field`:
`randint(int(w*0.1), int(w*0.9))`, `randint(int(h*0.1), int(h*0.9))`,
`uniform(0.8, 1.0)` per seed, in order. -/
def seedsLoop (w h : ℕ) : ℕ → σ → List (ℤ × ℤ × ℚ) × σ
  | 0, g => ([], g)
  | n + 1, g =>
      let p1 := E.randintF (pyInt ((w : ℚ) * 0.1)) (pyInt ((w : ℚ) * 0.9)) g
      let p2 := E.randintF (pyInt ((h : ℚ) * 0.1)) (pyInt ((h : ℚ) * 0.9)) p1.2
      let p3 := E.uniformF 0.8 1.0 p2.2
      let rest := seedsLoop w h n p3.2
      ((p1.1, p2.1, p3.1) :: rest.1, rest.2)

/-- The particle flows of all seeds, accumulated into the density raster. -/
def seedsAdvect (w h : ℕ) (flow : ℕ → ℕ → ℚ × ℚ) (maxSteps ppseed : ℕ) :
    List (ℤ × ℤ × ℚ) → (ℕ → ℕ → ℚ) → σ → (ℕ → ℕ → ℚ) × σ
  | [], d, g => (d, g)
  | s :: rest, d, g =>
      let r := particleRuns E w h flow maxSteps s.1 s.2.1 s.2.2 ppseed d g
      seedsAdvect w h flow maxSteps ppseed rest r.1 r.2

/-- The pre-smoothing density raster of `_create_density_field`:
flow field, seed placement, then particle advection from every seed. -/
def rawDensityPx (w h numSeeds : ℕ) (g : σ) : (ℕ → ℕ → ℚ) × σ :=
  let scale := flowScale w h
  let flow := fun ix iy => flowAt E scale ix iy
  let r := seedsLoop E w h numSeeds g
  seedsAdvect E w h flow (maxStepsFor w h) (particlesPerSeed w h) r.1
    (fun _ _ => 0) r.2

/-- The smoothing pass of `_create_density_field`: the output starts as
`np.zeros_like(density)` and only interior pixels
(`1 ≤ x < w-1`, `1 ≤ y < h-1`) are written with
`(N + S + E + W + 2*center) / 6`. -/
def smoothPass (w h : ℕ) (d : ℕ → ℕ → ℚ) : ℕ → ℕ → ℚ :=
  fun x y =>
    if 1 ≤ x ∧ x + 1 < w ∧ 1 ≤ y ∧ y + 1 < h then
      (d x (y - 1) + d x (y + 1) + d (x - 1) y + d (x + 1) y + d x y * 2) / 6.0
    else 0

/-- Model of `NebulaGenerator._create_density_field`: raw accumulation, then the
smoothing pass only when `width * height < 500000`. -/
def createDensityField (w h numSeeds : ℕ) (g : σ) : Img ℚ × σ :=
  let r := rawDensityPx E w h numSeeds g
  (⟨w, h, if w * h < 500000 then smoothPass w h r.1 else r.1⟩, r.2)

/-- Model of `np.max` over the density raster (all its values are nonnegative in
this pipeline, so folding `max` from `0` agrees with `np.max`). -/
def rasterMax (d : Img ℚ) : ℚ :=
  ((List.range d.width).flatMap fun x =>
    (List.range d.height).map fun y => d.px x y).foldl max 0

/-- The normalization step of `_create_nebula_layer`: divide by the raster
maximum when it is positive, otherwise leave the density unchanged. -/
def normDensity (d : Img ℚ) (x y : ℕ) : ℚ :=
  if 0 < rasterMax d then d.px x y / rasterMax d else d.px x y

/-- Model of `NebulaGenerator._create_nebula_layer` on the generator canvas
`w × h`: normalize by the raster maximum when it is positive, then per
pixel with normalized density above `0.05` write brightness-scaled color
channels and `min(255, int(sqrt(density) * 255 * opacity))` alpha into the
`uint8` array; other pixels stay `(0, 0, 0, 0)`. -/
def createNebulaLayer (w h : ℕ) (color : RGB) (opacity : ℚ) (d : Img ℚ) :
    Img RGBA :=
  ⟨w, h, fun x y =>
    let dens := normDensity d x y
    if 0.05 < dens then
      let bf := 0.7 + dens * 0.6
      (u8 (min 255 (pyInt ((color.1 : ℚ) * bf))),
       u8 (min 255 (pyInt ((color.2.1 : ℚ) * bf))),
       u8 (min 255 (pyInt ((color.2.2 : ℚ) * bf))),
       u8 (min 255 (pyInt (E.pySqrt dens * 255 * opacity))))
    else (0, 0, 0, 0)⟩

/-- Model of `Image.alpha_composite(a, b)` (pixelwise, dimensions of `a`;
PIL requires equal dimensions, which the pipeline maintains). -/
def compositeImg (a b : Img RGBA) : Img RGBA :=
  ⟨a.width, a.height, fun x y => E.overF (a.px x y) (b.px x y)⟩

/-- Model of conversion to RGBA on an RGB image: alpha becomes `255`. -/
def toRGBA (a : Img RGB) : Img RGBA :=
  ⟨a.width, a.height, fun x y => ((a.px x y).1, (a.px x y).2.1, (a.px x y).2.2, 255)⟩

/-- Model of conversion to RGB on an RGBA image: the alpha channel is dropped. -/
def toRGBImg (a : Img RGBA) : Img RGB :=
  ⟨a.width, a.height, fun x y => ((a.px x y).1, (a.px x y).2.1, (a.px x y).2.2.1)⟩

/-- The gas-layer loop of `generate_nebula`: for each color (index `i`),
build a density field with `2 + i` seeds, render it with opacity
`0.5 + i * 0.1`, Gaussian-blur with radius `2` if `w*h > 500000` else `4`,
and alpha-composite onto the accumulator. -/
def layerLoop (w h : ℕ) : List RGB → ℕ → Img RGBA → σ → Img RGBA × σ
  | [], _, acc, g => (acc, g)
  | c :: rest, i, acc, g =>
      let r := createDensityField E w h (2 + i) g
      let layer := createNebulaLayer E w h c (0.5 + (i : ℚ) * 0.1) r.1
      let radius := if 500000 < w * h then 2 else 4
      let blurred : Img RGBA := ⟨w, h, E.blurF radius layer.px⟩
      layerLoop w h rest (i + 1) (compositeImg E acc blurred) r.2

/-- Model of `NebulaGenerator.generate_nebula`: palette selection (only when no
explicit color list is given), gradient base, star field, gas layers, one
bright core layer, flatten to RGB.  A `ZeroDivisionError` in the gradient
base aborts the call before any randomness is consumed (`none`). -/
def generateNebula (w h : ℕ) (colorsArg : Option (List RGB)) (numStars : ℕ)
    (theme : String) (g : σ) : Option (Img RGB) × σ :=
  let colors := colorsArg.getD (paletteFor theme)
  match gradientBase E w h with
  | none => (none, g)
  | some base =>
      let acc0 := toRGBA base
      let rs := starField E w h numStars g
      let acc1 := compositeImg E acc0 rs.1
      let rl := layerLoop E w h colors 0 acc1 rs.2
      let rc := createDensityField E w h 1 rl.2
      let pc := E.choiceF colors.length rc.2
      let coreColor := colors.getD pc.1 (0, 0, 0)
      let bright : RGB :=
        (min 255 (pyInt ((coreColor.1 : ℚ) * 1.3)),
         min 255 (pyInt ((coreColor.2.1 : ℚ) * 1.3)),
         min 255 (pyInt ((coreColor.2.2 : ℚ) * 1.3)))
      let coreLayer := createNebulaLayer E w h bright 0.3 rc.1
      let blurredCore : Img RGBA := ⟨w, h, E.blurF 1 coreLayer.px⟩
      (some (toRGBImg (compositeImg E rl.1 blurredCore)), pc.2)

/-- Model of `NebulaGenerator.__init__`: stores the dimensions unvalidated; when a
seed is given it calls `random.seed(seed)` (overwriting the process-global
RNG state) and then `np.random.seed(seed)`, which raises `ValueError`
unless `0 ≤ seed < 2**32` (`none` marks that raise). -/
def nebulaInit (w h : ℤ) (seed : Option ℤ) (g : σ) : Option (ℤ × ℤ) × σ :=
  match seed with
  | none => (some (w, h), g)
  | some S => (if 0 ≤ S ∧ S < 2 ^ 32 then some (w, h) else none, E.seedF S)

/-- One full invocation: construct `NebulaGenerator(width, height, seed)`
and call `generate_nebula` (as `main` does). -/
def runGenerate (w h : ℕ) (seed : Option ℤ) (colorsArg : Option (List RGB))
    (numStars : ℕ) (theme : String) (g : σ) : Option (Img RGB) × σ :=
  match nebulaInit E (w : ℤ) (h : ℤ) seed g with
  | (none, g1) => (none, g1)
  | (some _, g1) => generateNebula E w h colorsArg numStars theme g1

/-- The theme names accepted by the `argparse` `choices` of `main`. -/
def cliThemes : List String := ["default", "fire", "ice", "alien", "sunset"]

/-- Model of the argument handling in `main`: width and height are plain `type=int`
with no bound check; only `--theme` is restricted (by `choices`). -/
def cliParse (w h : ℤ) (theme : String) : Option (ℤ × ℤ × String) :=
  if theme ∈ cliThemes then some (w, h, theme) else none

/-- The density fields built by the gas-layer loop, with the RNG threaded
exactly as `layerLoop` threads it (the color argument is not consumed by
`_create_density_field`). -/
def densList (w h : ℕ) : ℕ → ℕ → σ → List (Img ℚ) × σ
  | 0, _, g => ([], g)
  | n + 1, i, g =>
      let r := createDensityField E w h (2 + i) g
      let rest := densList w h n (i + 1) r.2
      (r.1 :: rest.1, rest.2)

/-- The structural trace of one `generate_nebula` run: the stars, the
per-layer density fields, and the core density field, in the order the
source consumes randomness. -/
def runTrace (w h : ℕ) (colors : List RGB) (numStars : ℕ) (g : σ) :
    List Star × List (Img ℚ) × Img ℚ × σ :=
  let rs := starList E w h numStars g
  let rd := densList E w h colors.length 0 rs.2
  let rc := createDensityField E w h 1 rd.2
  (rs.1, rd.1, rc.1, rc.2)

end Model

/-- A concrete instance of the abstract environment, used to evaluate the
model at explicit inputs: the RNG state is a stream position in `ℕ`, every
draw returns its lower bound and advances the position, and the abstract
float functions are constant. -/
def cEnv : PyEnv ℕ where
  seedF := fun S => S.toNat
  randintF := fun a _ s => (a, s + 1)
  uniformF := fun a _ s => (a, s + 1)
  randF := fun s => (0, s + 1)
  choiceF := fun _ s => (0, s + 1)
  pyHash := fun _ => 0
  piQ := 3.141592653589793
  pyCos := fun _ => 0
  pySin := fun _ => 0
  pySqrt := fun _ => 0
  drawStarsF := fun _ _ _ => (0, 0, 0, 0)
  blurF := fun _ f => f
  overF := fun _ b => b

/-! ## Claim C7: particle intensity decay -/

theorem decayStep_iterate (n : ℕ) : (decayStep^[n]) (1 : ℚ) = (0.95 : ℚ) ^ n := by
  induction n with
  | zero => simp
  | succ k ih =>
      rw [Function.iterate_succ_apply', ih, decayStep, pow_succ]

/-- C7 (counterexample): after 76 decay steps the intensity of a particle
that starts at `1.0` is still `0.95 ^ 76 ≈ 0.02027`, not strictly below the
`0.02` termination threshold — the claimed bound of 76 steps is wrong. -/
theorem decay_within_76_false : ¬(decayStep^[76]) (1 : ℚ) < 0.02 := by
  rw [decayStep_iterate]
  norm_num

/-- C7 (amended): a particle with initial intensity `1.0`, multiplied by
`0.95` each advection step, first drops strictly below the `0.02`
termination threshold after 77 steps: `⌈ln 0.02 / ln 0.95⌉ = 77`, since
`0.95 ^ 77 < 0.02 ≤ 0.95 ^ 76`. -/
theorem decay_within_77 :
    (decayStep^[77]) (1 : ℚ) < 0.02 ∧ (0.02 : ℚ) ≤ (decayStep^[76]) 1 := by
  rw [decayStep_iterate, decayStep_iterate]
  constructor <;> norm_num

/-! ## Claim C8: turbulence accumulation -/

theorem turbLoop_eq_spec (pyHash : ℤ × ℤ → ℤ) (x y s : ℚ) :
    turbLoop pyHash x y s
      = ((octaves s).map (fun t => |noise2d pyHash (x / t) (y / t)| * t)).sum := by
  by_cases hlt : s < 1
  · rw [turbLoop, octaves]
    simp [hlt]
  · rw [turbLoop, octaves]
    rw [dif_neg hlt, dif_neg hlt, List.map_cons, List.sum_cons,
      turbLoop_eq_spec pyHash x y (s / 2)]
  termination_by (⌈2 * s⌉).toNat
  decreasing_by exact halvingMeasureLt hlt

theorem octaves_mem_one_le {s t : ℚ} (ht : t ∈ octaves s) : 1 ≤ t := by
  by_cases hlt : s < 1
  · rw [octaves, dif_pos hlt] at ht
    simp at ht
  · rw [octaves, dif_neg hlt, List.mem_cons] at ht
    rcases ht with h | h
    · exact h ▸ not_lt.mp hlt
    · exact octaves_mem_one_le h
  termination_by (⌈2 * s⌉).toNat
  decreasing_by exact halvingMeasureLt hlt

/-- C8: for `size ≥ 1`, `_turbulence(x, y, size)` equals the accumulated
sum `Σ |noise(x/s, y/s)| * s` over `s = size, size/2, size/4, ... ≥ 1`
divided by the initial size, and the result is always nonnegative. -/
theorem turbulence_spec (pyHash : ℤ × ℤ → ℤ) (x y size : ℚ) (hs : 1 ≤ size) :
    turbulence pyHash x y size = specTurbulence pyHash x y size
  ∧ 0 ≤ turbulence pyHash x y size := by
  have hsum : 0 ≤ ((octaves size).map
      (fun t => |noise2d pyHash (x / t) (y / t)| * t)).sum := by
    apply List.sum_nonneg
    intro a ha
    rw [List.mem_map] at ha
    obtain ⟨t, htmem, rfl⟩ := ha
    have h1 : (1 : ℚ) ≤ t := octaves_mem_one_le htmem
    exact mul_nonneg (abs_nonneg _) (le_trans zero_le_one h1)
  constructor
  · rw [turbulence, specTurbulence, turbLoop_eq_spec]
  · rw [turbulence, turbLoop_eq_spec]
    exact div_nonneg hsum (by linarith)

/-- C8 witness: the theorem instantiated at `x = 0`, `y = 0`, `size = 1`
and the trivial hash. -/
theorem turbulence_spec_witness :
    (1 : ℚ) ≤ 1
  ∧ (turbulence (fun _ => 0) 0 0 1 = specTurbulence (fun _ => 0) 0 0 1
      ∧ 0 ≤ turbulence (fun _ => 0) 0 0 1) :=
  ⟨le_refl 1, turbulence_spec (fun _ => 0) 0 0 1 (le_refl 1)⟩

/-! ## Claim C5: the smoothing pass -/

/-- C5 (counterexample): the smoothing pass does not leave border pixels at
their pre-smoothing values — on the constant raster `1` over a `3 × 3`
canvas the border pixel `(0, 0)` comes back as `0`, because the output
array starts as `np.zeros_like(density)` and only interior pixels are
written. -/
theorem smoothing_border_not_preserved :
    smoothPass 3 3 (fun _ _ => (1 : ℚ)) 0 0 ≠ (fun _ _ => (1 : ℚ)) 0 0 := by
  rw [smoothPass]
  norm_num

/-- C5 (amended): `_create_density_field` applies the smoothing pass
exactly when `width * height < 500000`; a smoothed interior pixel becomes
`(N + S + E + W + 2*center) / 6` of the pre-smoothing density; border
pixels of the returned raster are set to `0` (not left at their
pre-smoothing values). -/
theorem smoothing_threshold_and_formula {σ : Type} (E : PyEnv σ)
    (w h numSeeds : ℕ) (g : σ) :
    (w * h < 500000 →
      (createDensityField E w h numSeeds g).1.px
        = smoothPass w h (rawDensityPx E w h numSeeds g).1)
  ∧ (¬w * h < 500000 →
      (createDensityField E w h numSeeds g).1.px
        = (rawDensityPx E w h numSeeds g).1)
  ∧ (∀ (d : ℕ → ℕ → ℚ) (x y : ℕ), 1 ≤ x → x + 1 < w → 1 ≤ y → y + 1 < h →
      smoothPass w h d x y
        = (d x (y - 1) + d x (y + 1) + d (x - 1) y + d (x + 1) y + d x y * 2) / 6)
  ∧ (∀ (d : ℕ → ℕ → ℚ) (x y : ℕ), ¬(1 ≤ x ∧ x + 1 < w ∧ 1 ≤ y ∧ y + 1 < h) →
      smoothPass w h d x y = 0) := by
  refine ⟨fun hlt => ?_, fun hge => ?_, fun d x y hx hxw hy hyh => ?_,
    fun d x y hb => ?_⟩
  · rw [createDensityField, if_pos hlt]
  · rw [createDensityField, if_neg hge]
  · rw [smoothPass]
    norm_num [hx, hxw, hy, hyh]
  · rw [smoothPass]
    simp [hb]

/-- C5 witness: on a `3 × 3` canvas (area below the threshold) the field is
smoothed, and the interior formula holds at pixel `(1, 1)` of the constant
raster `6`. -/
theorem smoothing_witness :
    (3 * 3 < 500000
      ∧ (createDensityField cEnv 3 3 2 0).1.px
          = smoothPass 3 3 (rawDensityPx cEnv 3 3 2 0).1)
  ∧ ((1 : ℕ) ≤ 1 ∧ 1 + 1 < 3
      ∧ smoothPass 3 3 (fun _ _ => (6 : ℚ)) 1 1 = (6 + 6 + 6 + 6 + 6 * 2) / 6) :=
  ⟨⟨by norm_num,
    (smoothing_threshold_and_formula cEnv 3 3 2 0).1 (by norm_num)⟩,
   le_refl 1, by norm_num,
   (smoothing_threshold_and_formula cEnv 3 3 2 0).2.2.1
     (fun _ _ => (6 : ℚ)) 1 1 (le_refl 1) (by norm_num) (le_refl 1) (by norm_num)⟩

/-! ## Claim C9: the layer renderer -/

/-- Spec-side `clamp(value, 0, 255)` on a float written into a byte
channel (with the Python `int()` conversion). -/
def clampByte (q : ℚ) : ℤ := max 0 (min 255 (pyInt q))

/-- The alpha channel of an RGBA pixel. -/
def alphaOf (p : RGBA) : ℤ := p.2.2.2

theorem foldl_max_init_le (l : List ℚ) (init : ℚ) : init ≤ l.foldl max init := by
  induction l generalizing init with
  | nil => exact le_refl init
  | cons b t ih => exact le_trans (le_max_left init b) (ih (max init b))

theorem le_foldl_max {a : ℚ} (l : List ℚ) (init : ℚ) (h : a ∈ l) :
    a ≤ l.foldl max init := by
  induction l generalizing init with
  | nil => cases h
  | cons b t ih =>
      rcases List.mem_cons.mp h with rfl | hmem
      · exact le_trans (le_max_right init a) (foldl_max_init_le t (max init a))
      · exact ih (max init b) hmem

theorem le_rasterMax (d : Img ℚ) {x y : ℕ} (hx : x < d.width)
    (hy : y < d.height) : d.px x y ≤ rasterMax d := by
  apply le_foldl_max
  rw [List.mem_flatMap]
  exact ⟨x, List.mem_range.mpr hx,
    List.mem_map.mpr ⟨y, List.mem_range.mpr hy, rfl⟩⟩

theorem pyInt_nonneg {q : ℚ} (h : 0 ≤ q) : 0 ≤ pyInt q := by
  rw [pyInt, if_pos h]
  exact Int.floor_nonneg.mpr h

theorem u8_min_clamp {q : ℚ} (h : 0 ≤ q) :
    u8 (min 255 (pyInt q)) = clampByte q := by
  have h0 : 0 ≤ pyInt q := pyInt_nonneg h
  have h1 : (0 : ℤ) ≤ min 255 (pyInt q) := le_min (by norm_num) h0
  have h2 : min 255 (pyInt q) < 256 := lt_of_le_of_lt (min_le_left _ _) (by norm_num)
  rw [u8, Int.emod_eq_of_lt h1 h2, clampByte, max_eq_right h1]

/-- C9: the function `_create_nebula_layer` normalizes by the own maximum of the raster
(skipping when it is `0`, in which case every in-range alpha is `0`);
pixels whose normalized density is at or under `0.05` are `(0, 0, 0, 0)`;
pixels above the threshold get per-channel color
`clamp(color * (0.7 + 0.6 * density), 0, 255)` and alpha
`clamp(sqrt(density) * 255 * opacity, 0, 255)`; the output has the input
dimensions of the input raster. -/
theorem layer_renderer_spec {σ : Type} (E : PyEnv σ) (w h : ℕ) (c : RGB)
    (op : ℚ) (d : Img ℚ)
    (hdw : d.width = w) (hdh : d.height = h)
    (hc0 : 0 ≤ c.1) (hc1 : 0 ≤ c.2.1) (hc2 : 0 ≤ c.2.2) (hop : 0 ≤ op)
    (hsq : ∀ q : ℚ, 0 ≤ q → 0 ≤ E.pySqrt q)
    (hd : ∀ x y : ℕ, x < w → y < h → 0 ≤ d.px x y) :
    ((createNebulaLayer E w h c op d).width = d.width
      ∧ (createNebulaLayer E w h c op d).height = d.height)
  ∧ (rasterMax d = 0 → ∀ x y : ℕ, x < w → y < h →
      alphaOf ((createNebulaLayer E w h c op d).px x y) = 0)
  ∧ (∀ x y : ℕ, x < w → y < h →
      (normDensity d x y ≤ 0.05 →
        (createNebulaLayer E w h c op d).px x y = (0, 0, 0, 0))
    ∧ (0.05 < normDensity d x y →
        (createNebulaLayer E w h c op d).px x y
          = (clampByte ((c.1 : ℚ) * (0.7 + normDensity d x y * 0.6)),
             clampByte ((c.2.1 : ℚ) * (0.7 + normDensity d x y * 0.6)),
             clampByte ((c.2.2 : ℚ) * (0.7 + normDensity d x y * 0.6)),
             clampByte (E.pySqrt (normDensity d x y) * 255 * op)))) := by
  have hpx : ∀ x y : ℕ, (createNebulaLayer E w h c op d).px x y
      = if 0.05 < normDensity d x y then
          (u8 (min 255 (pyInt ((c.1 : ℚ) * (0.7 + normDensity d x y * 0.6)))),
           u8 (min 255 (pyInt ((c.2.1 : ℚ) * (0.7 + normDensity d x y * 0.6)))),
           u8 (min 255 (pyInt ((c.2.2 : ℚ) * (0.7 + normDensity d x y * 0.6)))),
           u8 (min 255 (pyInt (E.pySqrt (normDensity d x y) * 255 * op))))
        else (0, 0, 0, 0) := fun x y => rfl
  refine ⟨⟨hdw.symm, hdh.symm⟩, fun hm x y hx hy => ?_, fun x y hx hy => ?_⟩
  · have hle : d.px x y ≤ 0.05 := by
      have := le_rasterMax d (x := x) (y := y) (hdw ▸ hx) (hdh ▸ hy)
      rw [hm] at this
      linarith
    have hnd : normDensity d x y ≤ 0.05 := by
      rw [normDensity, hm]
      simpa using hle
    rw [hpx, if_neg (not_lt.mpr hnd)]
    rfl
  · constructor
    · intro hle
      rw [hpx, if_neg (not_lt.mpr hle)]
    · intro hgt
      have hnd0 : (0 : ℚ) ≤ normDensity d x y := by linarith
      have hbf : (0 : ℚ) ≤ 0.7 + normDensity d x y * 0.6 := by linarith
      have ha : (0 : ℚ) ≤ E.pySqrt (normDensity d x y) * 255 * op :=
        mul_nonneg (mul_nonneg (hsq _ hnd0) (by norm_num)) hop
      rw [hpx, if_pos hgt,
        u8_min_clamp (mul_nonneg (by exact_mod_cast hc0) hbf),
        u8_min_clamp (mul_nonneg (by exact_mod_cast hc1) hbf),
        u8_min_clamp (mul_nonneg (by exact_mod_cast hc2) hbf),
        u8_min_clamp ha]

/-- C9 witness: the theorem instantiated on a `1 × 1` constant raster with
the first default-palette color and opacity `1/2`. -/
theorem layer_renderer_spec_witness :
    ((⟨1, 1, fun _ _ => (1 : ℚ)⟩ : Img ℚ).width = 1
      ∧ (⟨1, 1, fun _ _ => (1 : ℚ)⟩ : Img ℚ).height = 1
      ∧ (0 : ℤ) ≤ 255 ∧ (0 : ℤ) ≤ 120 ∧ (0 : ℤ) ≤ 40 ∧ (0 : ℚ) ≤ 1 / 2
      ∧ (∀ q : ℚ, 0 ≤ q → 0 ≤ cEnv.pySqrt q)
      ∧ (∀ x y : ℕ, x < 1 → y < 1 →
          0 ≤ (⟨1, 1, fun _ _ => (1 : ℚ)⟩ : Img ℚ).px x y))
  ∧ (((createNebulaLayer cEnv 1 1 (255, 120, 40) (1 / 2)
          ⟨1, 1, fun _ _ => (1 : ℚ)⟩).width
        = (⟨1, 1, fun _ _ => (1 : ℚ)⟩ : Img ℚ).width
      ∧ (createNebulaLayer cEnv 1 1 (255, 120, 40) (1 / 2)
          ⟨1, 1, fun _ _ => (1 : ℚ)⟩).height
        = (⟨1, 1, fun _ _ => (1 : ℚ)⟩ : Img ℚ).height)
  ∧ (rasterMax ⟨1, 1, fun _ _ => (1 : ℚ)⟩ = 0 → ∀ x y : ℕ, x < 1 → y < 1 →
      alphaOf ((createNebulaLayer cEnv 1 1 (255, 120, 40) (1 / 2)
          ⟨1, 1, fun _ _ => (1 : ℚ)⟩).px x y) = 0)
  ∧ (∀ x y : ℕ, x < 1 → y < 1 →
      (normDensity ⟨1, 1, fun _ _ => (1 : ℚ)⟩ x y ≤ 0.05 →
        (createNebulaLayer cEnv 1 1 (255, 120, 40) (1 / 2)
            ⟨1, 1, fun _ _ => (1 : ℚ)⟩).px x y = (0, 0, 0, 0))
    ∧ (0.05 < normDensity ⟨1, 1, fun _ _ => (1 : ℚ)⟩ x y →
        (createNebulaLayer cEnv 1 1 (255, 120, 40) (1 / 2)
            ⟨1, 1, fun _ _ => (1 : ℚ)⟩).px x y
          = (clampByte ((((255 : ℤ) : ℚ))
                * (0.7 + normDensity ⟨1, 1, fun _ _ => (1 : ℚ)⟩ x y * 0.6)),
             clampByte ((((120 : ℤ) : ℚ))
                * (0.7 + normDensity ⟨1, 1, fun _ _ => (1 : ℚ)⟩ x y * 0.6)),
             clampByte ((((40 : ℤ) : ℚ))
                * (0.7 + normDensity ⟨1, 1, fun _ _ => (1 : ℚ)⟩ x y * 0.6)),
             clampByte (cEnv.pySqrt (normDensity ⟨1, 1, fun _ _ => (1 : ℚ)⟩ x y)
                * 255 * (1 / 2)))))) :=
  ⟨⟨rfl, rfl, by norm_num, by norm_num, by norm_num, by norm_num,
    fun q _ => le_refl 0, fun x y _ _ => by norm_num⟩,
   layer_renderer_spec cEnv 1 1 (255, 120, 40) (1 / 2)
     ⟨1, 1, fun _ _ => (1 : ℚ)⟩ rfl rfl (by norm_num) (by norm_num)
     (by norm_num) (by norm_num) (fun q _ => le_refl 0)
     (fun x y _ _ => by norm_num)⟩

/-! ## Claim C3: parameter validation -/

theorem paletteFor_unknown {t : String} (ht : t ∉ cliThemes) :
    paletteFor t = paletteFor "default" := by
  simp only [cliThemes, List.mem_cons, List.not_mem_nil, or_false, not_or] at ht
  obtain ⟨h0, h1, h2, h3, h4⟩ := ht
  rw [paletteFor, if_neg h1, if_neg h2, if_neg h3, if_neg h4]
  decide

/-- C3 (counterexample): `generate(0, 100, ...)` is not rejected — the CLI
accepts width `0` (`argparse` bounds only the theme), `__init__` performs
no dimension validation, the first pipeline stage (the gradient base)
runs, and an unrecognized theme name passed to `generate_nebula` is not
rejected either: it silently selects the default palette. -/
theorem no_early_validation_cex :
    cliParse 0 100 "default" = some (0, 100, "default")
  ∧ (nebulaInit cEnv 0 100 none 5).1 = some (0, 100)
  ∧ gradientBase cEnv 0 100 ≠ none
  ∧ paletteFor "plasma" = paletteFor "default" := by
  refine ⟨by decide, rfl, ?_, by decide⟩
  rw [gradientBase]
  simp

/-- C3 (amended): the generator performs no dimension validation
(`__init__` accepts any width/height, including nonpositive ones, and
computation begins); only the CLI layer rejects anything, and only theme
names outside its `choices`; `generate_nebula` itself maps an unrecognized
theme to the default palette instead of rejecting it. -/
theorem no_early_validation {σ : Type} (E : PyEnv σ) (w h : ℤ) (g : σ)
    (t : String) :
    nebulaInit E w h none g = (some (w, h), g)
  ∧ (cliParse w h t = none ↔ t ∉ cliThemes)
  ∧ (t ∉ cliThemes → paletteFor t = paletteFor "default") := by
  refine ⟨rfl, ?_, fun ht => paletteFor_unknown ht⟩
  by_cases hm : t ∈ cliThemes
  · simp [cliParse, hm]
  · simp [cliParse, hm]

/-- C3 witness: the theorem instantiated at width `0`, height `100` and
the unknown theme name `"plasma"`. -/
theorem no_early_validation_witness :
    ("plasma" ∉ cliThemes)
  ∧ (nebulaInit cEnv 0 100 none 5 = (some (0, 100), 5)
      ∧ (cliParse 0 100 "plasma" = none ↔ "plasma" ∉ cliThemes)
      ∧ ("plasma" ∉ cliThemes → paletteFor "plasma" = paletteFor "default")) :=
  ⟨by decide, no_early_validation cEnv 0 100 5 "plasma"⟩

/-! ## Claim C4: process-global RNG state -/

/-- C4 (counterexample): seeding is not scoped to the generation call —
`NebulaGenerator.__init__(seed=0)` overwrites the process-global RNG
state (here: prior state `1` is replaced by the seeded state `0`), so
global RNG state does persist between calls. -/
theorem global_seeding_cex : (nebulaInit cEnv 800 600 (some 0) 1).2 ≠ 1 := by
  decide

/-- C4 (amended): constructing a seeded generator overwrites the
process-global RNG state with the state seeded by `random.seed(S)` regardless of what
was there; consequently two invocations on freshly seeded generators do
produce identical results (while a second call on the same generator
resumes the advanced global stream instead of the seeded one). -/
theorem global_seeding {σ : Type} (E : PyEnv σ) (w h S : ℤ) (g : σ)
    (wn hn numStars : ℕ) (colorsArg : Option (List RGB)) (theme : String)
    (g1 g2 : σ) :
    (nebulaInit E w h (some S) g).2 = E.seedF S
  ∧ runGenerate E wn hn (some S) colorsArg numStars theme g1
      = runGenerate E wn hn (some S) colorsArg numStars theme g2 :=
  ⟨rfl, rfl⟩

/-! ## Claim C10: explicit colors make the theme irrelevant -/

/-- C10: when an explicit colors list is passed (`colors is not None`),
`generate_nebula` is independent of the theme argument: the theme is
consulted only to select a palette when `colors is None`. -/
theorem explicit_colors_theme_independent {σ : Type} (E : PyEnv σ)
    (w h numStars : ℕ) (cs : List RGB) (T1 T2 : String) (g : σ) :
    generateNebula E w h (some cs) numStars T1 g
      = generateNebula E w h (some cs) numStars T2 g := rfl

/-! ## Claim C6: theme independence of structure -/

theorem paletteFor_length (t : String) : (paletteFor t).length = 4 := by
  rw [paletteFor]
  split_ifs <;> rfl

theorem layerLoop_snd {σ : Type} (E : PyEnv σ) (w h : ℕ) (cs : List RGB) :
    ∀ (i : ℕ) (acc : Img RGBA) (g : σ),
      (layerLoop E w h cs i acc g).2 = (densList E w h cs.length i g).2 := by
  induction cs with
  | nil => intro i acc g; rfl
  | cons c rest ih =>
      intro i acc g
      rw [layerLoop, List.length_cons, densList]
      exact ih (i + 1) _ _

theorem generateNebula_snd {σ : Type} (E : PyEnv σ) (w h numStars : ℕ)
    (colorsArg : Option (List RGB)) (theme : String) (g : σ) :
    (generateNebula E w h colorsArg numStars theme g).2
      = match gradientBase E w h with
        | none => g
        | some _ =>
            (E.choiceF (colorsArg.getD (paletteFor theme)).length
              (createDensityField E w h 1
                (densList E w h (colorsArg.getD (paletteFor theme)).length 0
                  (starList E w h numStars g).2).2).2).2 := by
  rw [generateNebula]
  cases gradientBase E w h with
  | none => rfl
  | some base =>
      simp only [starField]
      rw [layerLoop_snd]

/-- C6: two runs with the same RNG state and different themes consume the
same randomness stream — the star draws, the per-layer density fields and
the core density field coincide (every palette has exactly 4 colors, so
the layer loop structure is theme-independent), and the final global RNG
states of the two `generate_nebula` runs are equal; only the layer colors
applied differ. -/
theorem theme_structure_independent {σ : Type} (E : PyEnv σ)
    (w h numStars : ℕ) (T1 T2 : String) (g : σ) :
    runTrace E w h (paletteFor T1) numStars g
      = runTrace E w h (paletteFor T2) numStars g
  ∧ (generateNebula E w h none numStars T1 g).2
      = (generateNebula E w h none numStars T2 g).2 := by
  constructor
  · rw [runTrace, runTrace, paletteFor_length, paletteFor_length]
  · rw [generateNebula_snd, generateNebula_snd]
    simp only [Option.getD_none]
    rw [paletteFor_length, paletteFor_length]

/-! ## Claims C1 and C2: determinism and dimension fidelity -/

theorem layerLoop_dims {σ : Type} (E : PyEnv σ) (w h : ℕ) (cs : List RGB) :
    ∀ (i : ℕ) (acc : Img RGBA) (g : σ),
      (layerLoop E w h cs i acc g).1.width = acc.width
    ∧ (layerLoop E w h cs i acc g).1.height = acc.height := by
  induction cs with
  | nil => intro i acc g; exact ⟨rfl, rfl⟩
  | cons c rest ih =>
      intro i acc g
      rw [layerLoop]
      exact ih (i + 1) _ _

theorem not_both_one_radicand {w h : ℕ} (hw : 1 ≤ w) (hh : 1 ≤ h)
    (hne : ¬(w = 1 ∧ h = 1)) : (w / 2) ^ 2 + (h / 2) ^ 2 ≠ 0 := by
  intro h0
  rw [Nat.add_eq_zero, pow_eq_zero_iff (two_ne_zero), pow_eq_zero_iff (two_ne_zero)]
    at h0
  omega

theorem generateNebula_success {σ : Type} (E : PyEnv σ) (w h numStars : ℕ)
    (colorsArg : Option (List RGB)) (theme : String) (g : σ)
    (hcc : (w / 2) ^ 2 + (h / 2) ^ 2 ≠ 0) :
    ∃ img : Img RGB, (generateNebula E w h colorsArg numStars theme g).1 = some img
      ∧ img.width = w ∧ img.height = h := by
  rw [generateNebula]
  simp only [gradientBase]
  rw [if_neg hcc]
  refine ⟨_, rfl, ?_, ?_⟩
  · show (layerLoop E w h _ 0 _ _).1.width = w
    rw [(layerLoop_dims E w h _ 0 _ _).1]
    rfl
  · show (layerLoop E w h _ 0 _ _).1.height = h
    rw [(layerLoop_dims E w h _ 0 _ _).2]
    rfl

/-- C2 (counterexample): the degenerate `1 × 1` canvas is fatal — the
gradient base computes `max_distance = sqrt(0) = 0` and the per-pixel
division `distance / max_distance` raises `ZeroDivisionError`, so
`generate_nebula` produces no image at all. -/
theorem one_by_one_fatal : (generateNebula cEnv 1 1 none 120 "default" 0).1 = none :=
  rfl

/-- C2 (amended): for every `w, h ≥ 1` other than the degenerate `1 × 1`
canvas, `generate_nebula` completes and returns an RGB image whose width
and height exactly equal the requested values (the `1 × 1` case raises
`ZeroDivisionError` in the gradient base, which is not covered by the
skip-if-max-is-0 rule of the layer renderer). -/
theorem dimension_fidelity {σ : Type} (E : PyEnv σ) (w h numStars : ℕ)
    (colorsArg : Option (List RGB)) (T : String) (g : σ)
    (hw : 1 ≤ w) (hh : 1 ≤ h) (hne : ¬(w = 1 ∧ h = 1)) :
    ∃ img : Img RGB, (generateNebula E w h colorsArg numStars T g).1 = some img
      ∧ img.width = w ∧ img.height = h :=
  generateNebula_success E w h numStars colorsArg T g
    (not_both_one_radicand hw hh hne)

/-- C2 witness: a `3 × 1` canvas (degenerate but not `1 × 1`) succeeds
with exact dimensions. -/
theorem dimension_fidelity_witness :
    ((1 : ℕ) ≤ 3 ∧ (1 : ℕ) ≤ 1 ∧ ¬((3 : ℕ) = 1 ∧ (1 : ℕ) = 1))
  ∧ ∃ img : Img RGB, (generateNebula cEnv 3 1 none 50 "ice" 0).1 = some img
      ∧ img.width = 3 ∧ img.height = 1 :=
  ⟨⟨by norm_num, le_refl 1, by norm_num⟩,
   dimension_fidelity cEnv 3 1 50 none "ice" 0 (by norm_num) (le_refl 1)
     (by norm_num)⟩

/-- C1 (counterexample): at width = height = 1 (within the claimed range
`w, h ≥ 1`) a seeded invocation yields no output image at all — the run
aborts in the gradient base — so the two invocations do not yield
byte-identical output images there. -/
theorem seeded_determinism_cex :
    (runGenerate cEnv 1 1 (some 0) none 120 "default" 7).1 = none := rfl

/-- C1 (amended): for `w, h ≥ 1` other than `1 × 1`, and any seed `S` with
`0 ≤ S < 2**32` (outside this range `np.random.seed(S)` in `__init__`
raises `ValueError`), two invocations that each construct a fresh
`NebulaGenerator` with seed `S` and call `generate_nebula` with identical
parameters produce identical results — whatever the prior global RNG
states were — and an output image exists. -/
theorem seeded_determinism {σ : Type} (E : PyEnv σ) (w h numStars : ℕ)
    (S : ℤ) (T : String) (g1 g2 : σ)
    (hw : 1 ≤ w) (hh : 1 ≤ h) (hne : ¬(w = 1 ∧ h = 1))
    (hS0 : 0 ≤ S) (hS1 : S < 2 ^ 32) :
    runGenerate E w h (some S) none numStars T g1
      = runGenerate E w h (some S) none numStars T g2
  ∧ ∃ img : Img RGB,
      (runGenerate E w h (some S) none numStars T g1).1 = some img
      ∧ img.width = w ∧ img.height = h := by
  have hrun : ∀ g : σ, runGenerate E w h (some S) none numStars T g
      = generateNebula E w h none numStars T (E.seedF S) := by
    intro g
    rw [runGenerate, nebulaInit, if_pos ⟨hS0, hS1⟩]
  constructor
  · rw [hrun g1, hrun g2]
  · rw [hrun g1]
    exact generateNebula_success E w h numStars none T (E.seedF S)
      (not_both_one_radicand hw hh hne)

/-- C1 witness: the theorem instantiated on a `2 × 2` canvas with seed `0`
and two distinct prior global RNG states. -/
theorem seeded_determinism_witness :
    ((1 : ℕ) ≤ 2 ∧ (1 : ℕ) ≤ 2 ∧ ¬((2 : ℕ) = 1 ∧ (2 : ℕ) = 1)
      ∧ (0 : ℤ) ≤ 0 ∧ (0 : ℤ) < 2 ^ 32)
  ∧ (runGenerate cEnv 2 2 (some 0) none 120 "default" 0
       = runGenerate cEnv 2 2 (some 0) none 120 "default" 1
     ∧ ∃ img : Img RGB,
         (runGenerate cEnv 2 2 (some 0) none 120 "default" 0).1 = some img
         ∧ img.width = 2 ∧ img.height = 2) :=
  ⟨⟨by norm_num, by norm_num, by norm_num, le_refl 0, by norm_num⟩,
   seeded_determinism cEnv 2 2 120 0 "default" 0 1 (by norm_num) (by norm_num)
     (by norm_num) (le_refl 0) (by norm_num)⟩

end Nebula
